import Mathlib

/-!
Verification development for the Microsoft-Dataverse-CLI repository.

The Python sources under `src/dataverse_cli/` (config.py, client.py,
commands/flow.py, commands/solution.py) and `src/delete_connector.py` are
shallowly embedded below: pure response-handling and credential logic become
Lean functions, the process-wide client cache becomes explicit state passing,
HTTP and identity-provider round trips become oracle parameters, and Python
exceptions become `Except String`.
-/

/- ## Python-style helpers -/

/-- Python `str.split(sep)` for a one-character separator, over the character
list of the string: `"a(b(c".split("(") = ["a", "b", "c"]`, `"".split("(")
= [""]`. -/
def pySplit (sep : Char) : List Char → List (List Char)
  | [] => [[]]
  | c :: rest =>
    if c == sep then [] :: pySplit sep rest
    else
      match pySplit sep rest with
      | [] => [[c]]
      | h :: t => (c :: h) :: t

theorem pySplit_ne_nil (sep : Char) (l : List Char) : pySplit sep l ≠ [] := by
  cases l with
  | nil => simp [pySplit]
  | cons c rest =>
    simp only [pySplit]
    split
    · simp
    · split
      · simp
      · simp

theorem pySplit_getD_zero (sep : Char) (l : List Char) :
    (pySplit sep l).getD 0 [] = l.takeWhile (fun c => !(c == sep)) := by
  induction l with
  | nil => simp [pySplit]
  | cons c rest ih =>
    simp only [pySplit, List.takeWhile]
    by_cases h : c == sep
    · simp [h]
    · simp only [h, if_neg, Bool.not_false]
      cases hres : pySplit sep rest with
      | nil => exact absurd hres (pySplit_ne_nil sep rest)
      | cons hd tl =>
        simp only [hres] at ih
        simpa using ih

theorem pySplit_append_sep (sep : Char) (pre rest : List Char) (hpre : sep ∉ pre) :
    pySplit sep (pre ++ sep :: rest) = pre :: pySplit sep rest := by
  induction pre with
  | nil => simp [pySplit]
  | cons c cs ih =>
    have hc : c ≠ sep := by
      intro h; exact hpre (by simp [h])
    have hcs : sep ∉ cs := by
      intro h; exact hpre (by simp [h])
    simp only [List.cons_append, pySplit, List.append_eq]
    rw [ih hcs]
    simp [hc]

theorem takeWhile_append_of_all {p : Char → Bool} (xs ys : List Char)
    (h : ∀ x ∈ xs, p x = true) :
    (xs ++ ys).takeWhile p = xs ++ ys.takeWhile p := by
  induction xs with
  | nil => simp
  | cons c cs ih =>
    have hc : p c = true := h c (by simp)
    simp only [List.cons_append, List.takeWhile, hc]
    simp [ih fun x hx => h x (by simp [hx])]

/-- `.data` distributes over string append. -/
theorem str_data_append (a b : String) : (a ++ b).data = a.data ++ b.data := by
  cases a; cases b; rfl

/-- The substring relation used to state the error-message contract: `sub`
occurs verbatim inside `s`. -/
def contains_sub (s sub : String) : Prop :=
  ∃ a b : List Char, s.data = a ++ (sub.data ++ b)

/- ## JSON values

Decoded JSON bodies as handed around by the Python code (dicts, lists,
strings, numbers, booleans, None). Numbers are abstracted to integers: none
of the embedded code paths does arithmetic on them. -/

inductive DvJson where
  | null
  | bool (b : Bool)
  | num (n : Int)
  | str (s : String)
  | arr (items : List DvJson)
  | obj (fields : List (String × DvJson))

/-- Python dict lookup `d.get(key)` (first binding wins; a decoded JSON dict
has no duplicate keys). -/
def lookupField : List (String × DvJson) → String → Option DvJson
  | [], _ => none
  | (k, v) :: rest, key => if k == key then some v else lookupField rest key

/-- Python truthiness of a decoded JSON value (`if not components: ...`). -/
def dvTruthy : DvJson → Bool
  | .null => false
  | .bool b => b
  | .num n => !(n == 0)
  | .str s => !s.data.isEmpty
  | .arr items => !items.isEmpty
  | .obj fields => !fields.isEmpty

mutual
/-- Python `==` on decoded JSON values (structural; dict comparison is modelled
order-sensitively, which agrees with Python on the scalar values these code
paths actually compare). -/
def dvBeq : DvJson → DvJson → Bool
  | .null, .null => true
  | .bool a, .bool b => a == b
  | .num a, .num b => a == b
  | .str a, .str b => a == b
  | .arr xs, .arr ys => dvBeqArr xs ys
  | .obj xs, .obj ys => dvBeqObj xs ys
  | _, _ => false

def dvBeqArr : List DvJson → List DvJson → Bool
  | [], [] => true
  | x :: xs, y :: ys => dvBeq x y && dvBeqArr xs ys
  | _, _ => false

def dvBeqObj : List (String × DvJson) → List (String × DvJson) → Bool
  | [], [] => true
  | (k1, v1) :: xs, (k2, v2) :: ys => k1 == k2 && dvBeq v1 v2 && dvBeqObj xs ys
  | _, _ => false
end

/-- Python `==` lifted to optional values (`None == None` is `True`,
`None == x` is `False` for present `x`). -/
def pyEqOpt (a b : Option DvJson) : Bool :=
  match a, b with
  | none, none => true
  | some x, some y => dvBeq x y
  | _, _ => false

/-- Python `str()` of a decoded JSON value as used in f-string interpolation
(`f"workflowid eq {wid}"`). Rendering of non-scalar values is abstracted:
the embedded code paths only interpolate GUID strings. -/
def pyStr : DvJson → String
  | .str s => s
  | .num n => toString n
  | .bool b => if b then "True" else "False"
  | .null => "None"
  | .arr _ => "[list]"
  | .obj _ => "[dict]"

/- ## Configuration (src/dataverse_cli/config.py) -/

/-- `Config.__init__`: a flat record of environment-sourced optional strings.
An unset environment variable is `none`; a set one is `some s` (possibly
empty, which Python treats as falsy). -/
structure Config where
  dataverse_url : Option String
  environment_id : Option String
  client_id : Option String
  client_secret : Option String
  tenant_id : Option String
  username : Option String
  password : Option String
  access_token : Option String

/-- Python truthiness of an optional environment-variable value. -/
def truthy : Option String → Bool
  | none => false
  | some s => !s.data.isEmpty

/-- `Config.has_token_auth`: `bool(self.access_token and self.dataverse_url)`. -/
def Config.has_token_auth (c : Config) : Bool :=
  truthy c.access_token && truthy c.dataverse_url

/-- `Config.has_service_principal_auth`. -/
def Config.has_service_principal_auth (c : Config) : Bool :=
  truthy c.dataverse_url && truthy c.client_id &&
    truthy c.client_secret && truthy c.tenant_id

/-- `Config.has_user_auth`. -/
def Config.has_user_auth (c : Config) : Bool :=
  truthy c.dataverse_url && truthy c.client_id && truthy c.tenant_id &&
    truthy c.username && truthy c.password

/-- `Config.get_missing_credentials`: token auth short-circuits to `[]`;
otherwise the absent members of the service-principal set are listed in
source order. -/
def Config.get_missing_credentials (c : Config) : List String :=
  if truthy c.access_token && truthy c.dataverse_url then []
  else
    (if truthy c.dataverse_url then [] else ["DATAVERSE_URL"]) ++
    (if truthy c.client_id then [] else ["DATAVERSE_CLIENT_ID"]) ++
    (if truthy c.client_secret then [] else ["DATAVERSE_CLIENT_SECRET"]) ++
    (if truthy c.tenant_id then [] else ["DATAVERSE_TENANT_ID"])

/-- The four service-principal environment variables paired with their
`Config` accessors, in the order `get_missing_credentials` checks them. -/
def service_principal_fields : List (String × (Config → Option String)) :=
  [("DATAVERSE_URL", Config.dataverse_url),
   ("DATAVERSE_CLIENT_ID", Config.client_id),
   ("DATAVERSE_CLIENT_SECRET", Config.client_secret),
   ("DATAVERSE_TENANT_ID", Config.tenant_id)]

theorem token_auth_missing_empty (c : Config) (h : c.has_token_auth = true) :
    c.get_missing_credentials = [] := by
  unfold Config.has_token_auth at h
  unfold Config.get_missing_credentials
  simp [h]

theorem sp_auth_missing_empty (c : Config) (h : c.has_service_principal_auth = true) :
    c.get_missing_credentials = [] := by
  unfold Config.has_service_principal_auth at h
  simp only [Bool.and_eq_true] at h
  obtain ⟨⟨⟨hu, hc⟩, hs⟩, ht⟩ := h
  unfold Config.get_missing_credentials
  cases hta : truthy c.access_token <;> simp [hu, hc, hs, ht, hta]

theorem missing_empty_cases (c : Config) (h : c.get_missing_credentials = []) :
    c.has_token_auth = true ∨ c.has_service_principal_auth = true := by
  unfold Config.get_missing_credentials at h
  unfold Config.has_token_auth Config.has_service_principal_auth
  cases hta : truthy c.access_token <;>
    cases hu : truthy c.dataverse_url <;>
    cases hc : truthy c.client_id <;>
    cases hs : truthy c.client_secret <;>
    cases ht : truthy c.tenant_id <;>
    simp_all

/-- C5: a configuration with a (truthy) access token and base URL has
`has_token_auth() = true` regardless of every other field, and
`get_missing_credentials()` is empty. -/
theorem token_auth_short_circuits (c : Config)
    (h1 : truthy c.access_token = true) (h2 : truthy c.dataverse_url = true) :
    c.has_token_auth = true ∧ c.get_missing_credentials = [] := by
  have hta : c.has_token_auth = true := by
    unfold Config.has_token_auth; simp [h1, h2]
  exact ⟨hta, token_auth_missing_empty c hta⟩

/-- An example configuration complete for token auth and nothing else. -/
def token_only_config : Config :=
  { dataverse_url := some "https://org.crm.dynamics.com/"
    environment_id := none
    client_id := none
    client_secret := none
    tenant_id := none
    username := none
    password := none
    access_token := some "tok0" }

/-- Witness for C5 at `token_only_config`. -/
theorem token_auth_short_circuits_witness :
    truthy token_only_config.access_token = true ∧
    truthy token_only_config.dataverse_url = true ∧
    (token_only_config.has_token_auth = true ∧
      token_only_config.get_missing_credentials = []) :=
  ⟨rfl, rfl, token_auth_short_circuits token_only_config rfl rfl⟩

/-- C6: without a (truthy) access token, `get_missing_credentials()` is
exactly the absent members of the service-principal field set
(URL, client id, client secret, tenant id), in that order — even when the
configuration is complete for user auth. -/
theorem missing_credentials_sp_set (c : Config) (h : truthy c.access_token = false) :
    c.get_missing_credentials =
      (service_principal_fields.filter
        (fun p => !truthy (p.2 c))).map Prod.fst := by
  unfold Config.get_missing_credentials service_principal_fields
  cases hu : truthy c.dataverse_url <;>
    cases hc : truthy c.client_id <;>
    cases hs : truthy c.client_secret <;>
    cases ht : truthy c.tenant_id <;>
    simp [h, hu, hc, hs, ht, List.filter]

/-- An example configuration complete for user auth but with no client
secret and no access token. -/
def user_only_config : Config :=
  { dataverse_url := some "https://org.crm.dynamics.com"
    environment_id := none
    client_id := some "cid-1234"
    client_secret := none
    tenant_id := some "tid-5678"
    username := some "user@example.com"
    password := some "pw"
    access_token := none }

/-- Witness for C6 at `user_only_config`: the reported list is exactly
`["DATAVERSE_CLIENT_SECRET"]` even though user auth is complete. -/
theorem missing_credentials_sp_set_witness :
    truthy user_only_config.access_token = false ∧
    user_only_config.get_missing_credentials =
      (service_principal_fields.filter
        (fun p => !truthy (p.2 user_only_config))).map Prod.fst ∧
    user_only_config.get_missing_credentials = ["DATAVERSE_CLIENT_SECRET"] :=
  ⟨rfl, missing_credentials_sp_set user_only_config rfl, rfl⟩

/- ## API client response handling (src/dataverse_cli/client.py)

The wrapper methods `get`/`post`/`patch`/`delete` are embedded at the point
where the HTTP library has produced a response: the response (status, raw
body text, decoded JSON body, headers) is the input, and the Python
try/except around `raise_for_status` becomes `Except String`. Transport
failures (the `RequestException` branch) never produce a response and are
outside this embedding. -/

/-- An HTTP response as seen by the wrapper code: numeric status, raw body
text, the decoded JSON body (`response.json()`, the JSON library being an
external collaborator), and response headers. The HTTP library's header
lookup is case-insensitive; headers are modelled in canonical casing. -/
structure HttpResponse where
  status : Nat
  text : String
  json : DvJson
  headers : List (String × String)

/-- `requests.Response.raise_for_status` raises exactly for client errors
(4xx) and server errors (5xx). -/
def http_raise_for_status (status : Nat) : Bool :=
  decide (400 ≤ status) && decide (status < 600)

/-- The normalized error message `f"HTTP {e.response.status_code}: {e.response.text}"`
shared by all four wrapper methods. -/
def http_error_message (r : HttpResponse) : String :=
  "HTTP " ++ toString r.status ++ ": " ++ r.text

/-- Response-header lookup with default, `response.headers.get(key, "")`. -/
def headerGetD (headers : List (String × String)) (key dflt : String) : String :=
  match headers with
  | [] => dflt
  | (k, v) :: rest => if k == key then v else headerGetD rest key dflt

/-- `DataverseClient.get` response handling: error-normalize non-2xx, else
parse the body as JSON if non-empty, else return an empty object. -/
def client_get (r : HttpResponse) : Except String DvJson :=
  if http_raise_for_status r.status then .error (http_error_message r)
  else if r.text.data.isEmpty then .ok (.obj [])
  else .ok r.json

/-- `entity_id_header.split("(")[1].split(")")[0]` from `DataverseClient.post`. -/
def extract_entity_id (header : String) : String :=
  String.mk (((pySplit ')' ((pySplit '(' header.data).getD 1 [])).getD 0 []))

/-- `DataverseClient.post` response handling: error-normalize non-2xx; on
204 extract the created id from the `OData-EntityId` header when the header
is truthy and contains `'('`, else return an empty object; otherwise parse
the body as JSON if non-empty. -/
def client_post (r : HttpResponse) : Except String DvJson :=
  if http_raise_for_status r.status then .error (http_error_message r)
  else if r.status == 204 then
    let entity_id_header := headerGetD r.headers "OData-EntityId" ""
    if !entity_id_header.data.isEmpty && entity_id_header.data.contains '(' then
      .ok (.obj [("id", .str (extract_entity_id entity_id_header))])
    else .ok (.obj [])
  else if r.text.data.isEmpty then .ok (.obj [])
  else .ok r.json

/-- `DataverseClient.patch` response handling (same shape as `get`). -/
def client_patch (r : HttpResponse) : Except String DvJson :=
  if http_raise_for_status r.status then .error (http_error_message r)
  else if r.text.data.isEmpty then .ok (.obj [])
  else .ok r.json

/-- `DataverseClient.delete` response handling: nothing on success. -/
def client_delete (r : HttpResponse) : Except String Unit :=
  if http_raise_for_status r.status then .error (http_error_message r)
  else .ok ()

theorem http_error_message_data (r : HttpResponse) :
    (http_error_message r).data =
      "HTTP ".data ++ ((toString r.status).data ++ (": ".data ++ r.text.data)) := by
  unfold http_error_message
  simp [str_data_append]

/-- C1 counterexample: a 304 Not Modified response is non-2xx, yet `get`
returns it as a success instead of failing — `raise_for_status` only raises
for 4xx/5xx. The claim "every non-2xx status fails with an error" is
therefore false as stated. -/
theorem non_2xx_304_is_not_an_error :
    client_get ⟨304, "cached", DvJson.str "cached", []⟩
        = Except.ok (DvJson.str "cached") ∧
    ¬ (200 ≤ 304 ∧ 304 < 300) := by
  exact ⟨rfl, by omega⟩

/-- C1 (amended): for every response whose status is in the error range
400–599 (the statuses the HTTP library's `raise_for_status` treats as
errors; 1xx/3xx responses such as 304 are returned as successes), each of
`get`, `post`, `patch` and `delete` fails with a `ClientError` whose
message contains the numeric status and the raw body text verbatim. -/
theorem http_error_normalization (r : HttpResponse)
    (h4 : 400 ≤ r.status) (h6 : r.status < 600) :
    client_get r = .error (http_error_message r) ∧
    client_post r = .error (http_error_message r) ∧
    client_patch r = .error (http_error_message r) ∧
    client_delete r = .error (http_error_message r) ∧
    contains_sub (http_error_message r) (toString r.status) ∧
    contains_sub (http_error_message r) r.text := by
  have hraise : http_raise_for_status r.status = true := by
    unfold http_raise_for_status
    simp [h4, h6]
  refine ⟨?_, ?_, ?_, ?_, ?_, ?_⟩
  · unfold client_get; simp [hraise]
  · unfold client_post; simp [hraise]
  · unfold client_patch; simp [hraise]
  · unfold client_delete; simp [hraise]
  · exact ⟨"HTTP ".data, ": ".data ++ r.text.data, http_error_message_data r⟩
  · refine ⟨"HTTP ".data ++ (toString r.status).data ++ ": ".data, [], ?_⟩
    rw [http_error_message_data r]
    simp

/-- Witness for C1 (amended) at a concrete 404 response. -/
theorem http_error_normalization_witness :
    400 ≤ 404 ∧ 404 < 600 ∧
    (client_get ⟨404, "Not Found", DvJson.null, []⟩
        = .error (http_error_message ⟨404, "Not Found", DvJson.null, []⟩) ∧
     client_post ⟨404, "Not Found", DvJson.null, []⟩
        = .error (http_error_message ⟨404, "Not Found", DvJson.null, []⟩) ∧
     client_patch ⟨404, "Not Found", DvJson.null, []⟩
        = .error (http_error_message ⟨404, "Not Found", DvJson.null, []⟩) ∧
     client_delete ⟨404, "Not Found", DvJson.null, []⟩
        = .error (http_error_message ⟨404, "Not Found", DvJson.null, []⟩) ∧
     contains_sub (http_error_message ⟨404, "Not Found", DvJson.null, []⟩)
        (toString 404) ∧
     contains_sub (http_error_message ⟨404, "Not Found", DvJson.null, []⟩)
        "Not Found") :=
  ⟨by omega, by omega,
   http_error_normalization ⟨404, "Not Found", DvJson.null, []⟩ (by decide) (by decide)⟩

/-- C2 counterexample: a malformed `OData-EntityId` header that contains
`'('` but no closing `')'` does not yield an empty object — `post` returns
`{"id": "abc"}`, with everything after the paren as the id. -/
theorem post_204_malformed_header_not_empty :
    client_post ⟨204, "", DvJson.null,
        [("OData-EntityId", "https://org.crm.dynamics.com/api/data/v9.2/workflows(abc")]⟩
      = Except.ok (DvJson.obj [("id", DvJson.str "abc")]) := by
  rfl

theorem char_list_contains {l : List Char} {c : Char} (h : c ∈ l) :
    l.contains c = true := by
  simpa using h

theorem char_list_not_contains {l : List Char} {c : Char} (h : c ∉ l) :
    l.contains c = false := by
  simpa using h

/-- The split-based id extraction on a header of the documented shape
`<prefix>(<id>)<suffix>` recovers exactly `<id>`, provided the prefix
contains no `'('` and the id no parentheses. -/
theorem extract_entity_id_wellformed (pre id suf : String)
    (hpre : '(' ∉ pre.data) (hid1 : '(' ∉ id.data) (hid2 : ')' ∉ id.data) :
    extract_entity_id (pre ++ "(" ++ id ++ ")" ++ suf) = id := by
  have hdata : (pre ++ "(" ++ id ++ ")" ++ suf).data
      = pre.data ++ '(' :: (id.data ++ ')' :: suf.data) := by
    have h1 : "(".data = ['('] := rfl
    have h2 : ")".data = [')'] := rfl
    simp [str_data_append, h1, h2]
  unfold extract_entity_id
  rw [hdata, pySplit_append_sep '(' pre.data _ hpre]
  have hget1 : (pre.data :: pySplit '(' (id.data ++ ')' :: suf.data)).getD 1 []
      = (pySplit '(' (id.data ++ ')' :: suf.data)).getD 0 [] := by
    cases hres : pySplit '(' (id.data ++ ')' :: suf.data) with
    | nil => exact absurd hres (pySplit_ne_nil _ _)
    | cons hd tl => simp
  have hall1 : ∀ x ∈ id.data, (!(x == '(')) = true := by
    intro x hx
    have : x ≠ '(' := fun he => hid1 (he ▸ hx)
    simp [this]
  have hall2 : ∀ x ∈ id.data, (!(x == ')')) = true := by
    intro x hx
    have : x ≠ ')' := fun he => hid2 (he ▸ hx)
    simp [this]
  have hstep : List.takeWhile (fun c => !(c == '(')) (')' :: suf.data)
      = ')' :: List.takeWhile (fun c => !(c == '(')) suf.data := by
    simp [List.takeWhile]
  have hinner : (pySplit '(' (id.data ++ ')' :: suf.data)).getD 0 []
      = id.data ++ ')' :: List.takeWhile (fun c => !(c == '(')) suf.data := by
    rw [pySplit_getD_zero, takeWhile_append_of_all id.data _ hall1, hstep]
  have hstop : List.takeWhile (fun c => !(c == ')'))
      (')' :: List.takeWhile (fun c => !(c == '(')) suf.data) = [] := by
    simp [List.takeWhile]
  rw [hget1, hinner, pySplit_getD_zero,
    takeWhile_append_of_all id.data _ hall2, hstop, List.append_nil]

/-- C2 (amended): on a 204 response, the created id is taken from the
`OData-EntityId` header as the text strictly between the first `'('` and
the next `')'` — for a header `<prefix>(<guid>)<suffix>` the extracted id
is exactly `<guid>`; when the header is absent or contains no `'('`, `post`
returns an empty object.  (Forced change: a header that contains `'('` but
no `')'` is *not* mapped to an empty object — the remainder after the
paren becomes the id, see the counterexample.) -/
theorem post_204_entity_id_extraction (pre id suf s : String)
    (hpre : '(' ∉ pre.data) (hid1 : '(' ∉ id.data) (hid2 : ')' ∉ id.data)
    (hs : '(' ∉ s.data) :
    client_post ⟨204, "", DvJson.null, [("OData-EntityId", pre ++ "(" ++ id ++ ")" ++ suf)]⟩
      = Except.ok (DvJson.obj [("id", DvJson.str id)]) ∧
    client_post ⟨204, "", DvJson.null, [("OData-EntityId", s)]⟩
      = Except.ok (DvJson.obj []) ∧
    client_post ⟨204, "", DvJson.null, []⟩ = Except.ok (DvJson.obj []) := by
  refine ⟨?_, ?_, ?_⟩
  · have hdata : (pre ++ "(" ++ id ++ ")" ++ suf).data
        = pre.data ++ '(' :: (id.data ++ ')' :: suf.data) := by
      have h1 : "(".data = ['('] := rfl
      have h2 : ")".data = [')'] := rfl
      simp [str_data_append, h1, h2]
    have hne : ((pre ++ "(" ++ id ++ ")" ++ suf).data).isEmpty = false := by
      rw [hdata]
      cases pre.data <;> simp
    have hcontains : ((pre ++ "(" ++ id ++ ")" ++ suf).data).contains '(' = true := by
      apply char_list_contains
      rw [hdata]
      simp
    simp only [client_post, http_raise_for_status, headerGetD]
    simp [hne, hcontains, extract_entity_id_wellformed pre id suf hpre hid1 hid2]
  · simp only [client_post, http_raise_for_status, headerGetD]
    simp [hs]
  · rfl

/-- Witness for C2 (amended) at the spec's concrete example header. -/
theorem post_204_entity_id_extraction_witness :
    ('(' ∉ ("https://org.crm.dynamics.com/api/data/v9.2/workflows" : String).data) ∧
    ('(' ∉ ("29e2253b-cabc-f011-bbd3-000d3a8ba54e" : String).data) ∧
    (')' ∉ ("29e2253b-cabc-f011-bbd3-000d3a8ba54e" : String).data) ∧
    ('(' ∉ ("no-parens-here" : String).data) ∧
    (client_post ⟨204, "", DvJson.null,
        [("OData-EntityId", "https://org.crm.dynamics.com/api/data/v9.2/workflows" ++ "(" ++
          "29e2253b-cabc-f011-bbd3-000d3a8ba54e" ++ ")" ++ "")]⟩
      = Except.ok (DvJson.obj [("id", DvJson.str "29e2253b-cabc-f011-bbd3-000d3a8ba54e")]) ∧
     client_post ⟨204, "", DvJson.null, [("OData-EntityId", "no-parens-here")]⟩
      = Except.ok (DvJson.obj []) ∧
     client_post ⟨204, "", DvJson.null, []⟩ = Except.ok (DvJson.obj [])) :=
  ⟨by decide, by decide, by decide, by decide,
   post_204_entity_id_extraction
     "https://org.crm.dynamics.com/api/data/v9.2/workflows"
     "29e2253b-cabc-f011-bbd3-000d3a8ba54e" "" "no-parens-here"
     (by decide) (by decide) (by decide) (by decide)⟩

/- ## Client factory and process-wide cache (src/dataverse_cli/client.py)

`get_client` is embedded with the module-global `_client` as an explicit
input/output, and the two MSAL token exchanges
(`_get_service_principal_token`, `_get_user_token` — network calls against
the identity provider) as oracle parameters returning either a token or the
raised error's message. -/

/-- Python `str.rstrip("/")`. -/
def rstrip_slash (s : String) : String :=
  String.mk ((s.data.reverse.dropWhile fun c => c == '/').reverse)

/-- `DataverseClient.__init__` state: base URL (trailing slashes stripped)
and bearer token. -/
structure DataverseClient where
  dataverse_url : String
  access_token : String
deriving DecidableEq, Repr

/-- `DataverseClient(dataverse_url, access_token)`. -/
def mkDataverseClient (url tok : String) : DataverseClient :=
  ⟨rstrip_slash url, tok⟩

/-- `self.api_base = f"{self.dataverse_url}/api/data/v9.2"`. -/
def DataverseClient.api_base (c : DataverseClient) : String :=
  c.dataverse_url ++ "/api/data/v9.2"

/-- Which identity-provider flow was invoked. -/
inductive AuthStrategy where
  | servicePrincipal
  | userPassword
deriving DecidableEq, Repr

/-- The multi-line error message built by `get_client` when credentials are
missing. -/
def missing_creds_message (missing : List String) : String :=
  "Missing required Dataverse credentials. Please set the following environment variables:\n\n"
  ++ String.join (missing.map fun cred => "  - " ++ cred ++ "\n")
  ++ "\nFor service principal authentication (recommended for CLI):\n"
  ++ "  DATAVERSE_URL, DATAVERSE_CLIENT_ID, DATAVERSE_CLIENT_SECRET, DATAVERSE_TENANT_ID\n"
  ++ "\nFor user authentication:\n"
  ++ "  DATAVERSE_URL, DATAVERSE_CLIENT_ID, DATAVERSE_TENANT_ID, DATAVERSE_USERNAME, DATAVERSE_PASSWORD\n"
  ++ "\nFor token authentication (if you already have a token):\n"
  ++ "  DATAVERSE_URL, DATAVERSE_ACCESS_TOKEN\n"

/-- Outcome of one `get_client()` call: the returned client or raised
`ClientError` message, the module-global `_client` after the call, and the
identity-provider flows invoked during the call. -/
structure GetClientResult where
  result : Except String DataverseClient
  cache : Option DataverseClient
  idp_calls : List AuthStrategy

/-- The body of `get_client()` past the cache check: check
`get_missing_credentials`, then try token auth, then service principal,
then user auth; also records which identity-provider flows were invoked. -/
def get_client_core (cfg : Config)
    (sp_flow user_flow : Config → Except String String) :
    Except String DataverseClient × List AuthStrategy :=
  if cfg.get_missing_credentials ≠ [] then
    (.error (missing_creds_message cfg.get_missing_credentials), [])
  else if cfg.has_token_auth then
    (.ok (mkDataverseClient (cfg.dataverse_url.getD "") (cfg.access_token.getD "")), [])
  else if cfg.has_service_principal_auth then
    match sp_flow cfg with
    | .ok tok =>
      (.ok (mkDataverseClient (cfg.dataverse_url.getD "") tok), [.servicePrincipal])
    | .error e =>
      (.error ("Failed to authenticate with service principal: " ++ e),
        [.servicePrincipal])
  else if cfg.has_user_auth then
    match user_flow cfg with
    | .ok tok =>
      (.ok (mkDataverseClient (cfg.dataverse_url.getD "") tok), [.userPassword])
    | .error e =>
      (.error ("Failed to authenticate with user credentials: " ++ e),
        [.userPassword])
  else (.error "No valid authentication method available", [])

/-- `get_client()`: return the cached client if present; otherwise run the
credential checks and authentication, assigning the module global
(`_client = ...`) exactly on successful construction. -/
def get_client (cache : Option DataverseClient) (cfg : Config)
    (sp_flow user_flow : Config → Except String String) : GetClientResult :=
  match cache with
  | some c => ⟨.ok c, some c, []⟩
  | none =>
    let r := get_client_core cfg sp_flow user_flow
    ⟨r.1, match r.1 with | .ok c => some c | .error _ => none, r.2⟩

/-- `reset_client()`: clear the module-global cache. -/
def reset_client (_cache : Option DataverseClient) : Option DataverseClient :=
  none

/-- `Except.isOk` spelled out for closed-form statements. -/
def exceptIsOk {ε α : Type} : Except ε α → Bool
  | .ok _ => true
  | .error _ => false

theorem get_client_ok_cache (cache : Option DataverseClient) (cfg : Config)
    (sp_flow user_flow : Config → Except String String) (c : DataverseClient)
    (h : (get_client cache cfg sp_flow user_flow).result = .ok c) :
    (get_client cache cfg sp_flow user_flow).cache = some c := by
  unfold get_client at h ⊢
  cases cache with
  | some c0 => simp_all
  | none =>
    cases hres : (get_client_core cfg sp_flow user_flow).1 with
    | ok c2 => simp_all
    | error e => simp_all

/-- Stub identity-provider flow that always succeeds. -/
def idp_stub_ok : Config → Except String String := fun _ => Except.ok "T"

/-- Stub identity-provider flow that always fails. -/
def idp_stub_err : Config → Except String String := fun _ => Except.error "idp-down"

theorem core_token_branch (cfg : Config)
    (sp_flow user_flow : Config → Except String String)
    (h : cfg.has_token_auth = true) :
    get_client_core cfg sp_flow user_flow =
      (.ok (mkDataverseClient (cfg.dataverse_url.getD "") (cfg.access_token.getD "")), []) := by
  have hm := token_auth_missing_empty cfg h
  simp [get_client_core, hm, h]

theorem core_sp_branch (cfg : Config)
    (sp_flow user_flow : Config → Except String String)
    (h1 : cfg.has_token_auth = false) (h2 : cfg.has_service_principal_auth = true) :
    get_client_core cfg sp_flow user_flow =
      (match sp_flow cfg with
       | .ok tok =>
         (.ok (mkDataverseClient (cfg.dataverse_url.getD "") tok),
           [AuthStrategy.servicePrincipal])
       | .error e =>
         (.error ("Failed to authenticate with service principal: " ++ e),
           [AuthStrategy.servicePrincipal])) := by
  have hm := sp_auth_missing_empty cfg h2
  simp [get_client_core, hm, h1, h2]

theorem core_user_flow_never_runs (cfg : Config)
    (sp_flow user_flow : Config → Except String String) :
    AuthStrategy.userPassword ∉ (get_client_core cfg sp_flow user_flow).2 := by
  by_cases hm : cfg.get_missing_credentials = []
  · rcases missing_empty_cases cfg hm with ht | hsp
    · rw [core_token_branch cfg sp_flow user_flow ht]
      simp
    · by_cases ht : cfg.has_token_auth = true
      · rw [core_token_branch cfg sp_flow user_flow ht]
        simp
      · rw [core_sp_branch cfg sp_flow user_flow (by simpa using ht) hsp]
        cases sp_flow cfg <;> simp
  · simp [get_client_core, hm]

/-- C3 counterexample: a configuration complete for user auth (URL, client
id, tenant id, username, password) but with no client secret and no token
does not reach the username/password flow — `get_client` fails at the
missing-credentials check (which demands the service-principal set) and no
identity-provider flow is invoked, even though both stub flows would
succeed. -/
theorem user_flow_unreachable_counterexample :
    user_only_config.has_user_auth = true ∧
    (get_client none user_only_config idp_stub_ok idp_stub_ok).idp_calls = [] ∧
    exceptIsOk (get_client none user_only_config idp_stub_ok idp_stub_ok).result
      = false := by
  exact ⟨rfl, rfl, rfl⟩

/-- C3 (amended): authentication strategy selection is by fixed precedence
with first match winning — a token is used as-is with no identity-provider
call; otherwise, when the service-principal credentials are complete, the
client-credentials flow runs and its failure is wrapped into a message
identifying the service-principal strategy.  (Forced change: the
username/password flow, although present in the code, is unreachable — the
missing-credentials precheck requires the service-principal set or a
token, so a configuration complete only for user auth fails before any
flow runs; hence no call ever invokes the user flow.) -/
theorem auth_strategy_precedence (cfg : Config)
    (sp_flow user_flow : Config → Except String String) :
    (cfg.has_token_auth = true →
      get_client none cfg sp_flow user_flow =
        ⟨.ok (mkDataverseClient (cfg.dataverse_url.getD "") (cfg.access_token.getD "")),
         some (mkDataverseClient (cfg.dataverse_url.getD "") (cfg.access_token.getD "")),
         []⟩) ∧
    (cfg.has_token_auth = false → cfg.has_service_principal_auth = true →
      (∀ tok, sp_flow cfg = .ok tok →
        get_client none cfg sp_flow user_flow =
          ⟨.ok (mkDataverseClient (cfg.dataverse_url.getD "") tok),
           some (mkDataverseClient (cfg.dataverse_url.getD "") tok),
           [AuthStrategy.servicePrincipal]⟩) ∧
      (∀ e, sp_flow cfg = .error e →
        get_client none cfg sp_flow user_flow =
          ⟨.error ("Failed to authenticate with service principal: " ++ e), none,
           [AuthStrategy.servicePrincipal]⟩ ∧
        contains_sub ("Failed to authenticate with service principal: " ++ e)
          "service principal")) ∧
    (∀ cache, AuthStrategy.userPassword
        ∉ (get_client cache cfg sp_flow user_flow).idp_calls) := by
  refine ⟨?_, ?_, ?_⟩
  · intro h
    simp [get_client, core_token_branch cfg sp_flow user_flow h]
  · intro h1 h2
    have hcore := core_sp_branch cfg sp_flow user_flow h1 h2
    refine ⟨?_, ?_⟩
    · intro tok hsp
      rw [hsp] at hcore
      simp [get_client, hcore]
    · intro e hsp
      rw [hsp] at hcore
      refine ⟨by simp [get_client, hcore], ?_⟩
      refine ⟨"Failed to authenticate with ".data, ": ".data ++ e.data, ?_⟩
      have hsplit : ("Failed to authenticate with service principal: ").data
          = "Failed to authenticate with ".data
            ++ ("service principal".data ++ ": ".data) := by decide
      rw [str_data_append, hsplit]
      simp
  · intro cache
    cases cache with
    | some c0 => simp [get_client]
    | none =>
      simpa [get_client] using core_user_flow_never_runs cfg sp_flow user_flow

/-- An example configuration complete for service-principal auth only. -/
def sp_only_config : Config :=
  { dataverse_url := some "https://org.crm.dynamics.com"
    environment_id := none
    client_id := some "cid-1234"
    client_secret := some "secret"
    tenant_id := some "tid-5678"
    username := none
    password := none
    access_token := none }

/-- Witness for C3 (amended): the token branch at `token_only_config` and
the wrapped service-principal failure at `sp_only_config`. -/
theorem auth_strategy_precedence_witness :
    token_only_config.has_token_auth = true ∧
    get_client none token_only_config idp_stub_err idp_stub_err =
      ⟨.ok (mkDataverseClient "https://org.crm.dynamics.com/" "tok0"),
       some (mkDataverseClient "https://org.crm.dynamics.com/" "tok0"), []⟩ ∧
    sp_only_config.has_token_auth = false ∧
    sp_only_config.has_service_principal_auth = true ∧
    idp_stub_err sp_only_config = .error "idp-down" ∧
    (get_client none sp_only_config idp_stub_err idp_stub_err =
      ⟨.error ("Failed to authenticate with service principal: " ++ "idp-down"), none,
       [AuthStrategy.servicePrincipal]⟩ ∧
     contains_sub ("Failed to authenticate with service principal: " ++ "idp-down")
       "service principal") :=
  ⟨rfl,
   (auth_strategy_precedence token_only_config idp_stub_err idp_stub_err).1 rfl,
   rfl, rfl, rfl,
   ((auth_strategy_precedence sp_only_config idp_stub_err idp_stub_err).2.1
     rfl rfl).2 "idp-down" rfl⟩

/-- C4: a second `get_client()` call, without an intervening reset, returns
the identical cached instance with no identity-provider call, and leaves
the cache unchanged. -/
theorem get_client_idempotent_cached (cfg : Config)
    (sp_flow user_flow : Config → Except String String) (c : DataverseClient)
    (h : (get_client none cfg sp_flow user_flow).result = .ok c) :
    (get_client none cfg sp_flow user_flow).cache = some c ∧
    get_client ((get_client none cfg sp_flow user_flow).cache) cfg sp_flow user_flow
      = ⟨.ok c, some c, []⟩ := by
  have hc := get_client_ok_cache none cfg sp_flow user_flow c h
  exact ⟨hc, by rw [hc]; rfl⟩

/-- Witness for C4 at `token_only_config`. -/
theorem get_client_idempotent_cached_witness :
    (get_client none token_only_config idp_stub_err idp_stub_err).result
      = .ok (mkDataverseClient "https://org.crm.dynamics.com/" "tok0") ∧
    ((get_client none token_only_config idp_stub_err idp_stub_err).cache
      = some (mkDataverseClient "https://org.crm.dynamics.com/" "tok0") ∧
     get_client ((get_client none token_only_config idp_stub_err idp_stub_err).cache)
        token_only_config idp_stub_err idp_stub_err
      = ⟨.ok (mkDataverseClient "https://org.crm.dynamics.com/" "tok0"),
         some (mkDataverseClient "https://org.crm.dynamics.com/" "tok0"), []⟩) :=
  ⟨rfl,
   get_client_idempotent_cached token_only_config idp_stub_err idp_stub_err
     (mkDataverseClient "https://org.crm.dynamics.com/" "tok0") rfl⟩

/-- C9: whenever `get_client()` fails (missing credentials or a wrapped
authentication failure), the process-wide cache is unchanged, so a
subsequent call behaves exactly like the first. -/
theorem get_client_failure_preserves_cache (cache : Option DataverseClient)
    (cfg : Config) (sp_flow user_flow : Config → Except String String) (e : String)
    (h : (get_client cache cfg sp_flow user_flow).result = .error e) :
    (get_client cache cfg sp_flow user_flow).cache = cache ∧
    get_client ((get_client cache cfg sp_flow user_flow).cache) cfg sp_flow user_flow
      = get_client cache cfg sp_flow user_flow := by
  have hc : (get_client cache cfg sp_flow user_flow).cache = cache := by
    unfold get_client at h ⊢
    cases cache with
    | some c0 => simp_all
    | none =>
      cases hres : (get_client_core cfg sp_flow user_flow).1 with
      | ok c2 => simp_all
      | error e2 => simp_all
  exact ⟨hc, by rw [hc]⟩

/-- Witness for C9 at `user_only_config` (fails the missing-credentials
check with `DATAVERSE_CLIENT_SECRET`). -/
theorem get_client_failure_preserves_cache_witness :
    (get_client none user_only_config idp_stub_err idp_stub_err).result
      = .error (missing_creds_message ["DATAVERSE_CLIENT_SECRET"]) ∧
    ((get_client none user_only_config idp_stub_err idp_stub_err).cache = none ∧
     get_client ((get_client none user_only_config idp_stub_err idp_stub_err).cache)
        user_only_config idp_stub_err idp_stub_err
      = get_client none user_only_config idp_stub_err idp_stub_err) :=
  ⟨rfl,
   get_client_failure_preserves_cache none user_only_config idp_stub_err idp_stub_err
     (missing_creds_message ["DATAVERSE_CLIENT_SECRET"]) rfl⟩

/- ## Session headers across requests (src/dataverse_cli/client.py)

`requests.Session.headers` is a dict the wrapper mutates in place:
`__init__` installs the four fixed defaults, `post` assigns `Content-Type`
and `Prefer`, `patch` assigns `Content-Type`, and nothing ever removes
them.  Each request is sent with the session's headers at call time.
(The HTTP library's own defaults such as `User-Agent` are an external
concern and not modelled.) -/

/-- Python dict assignment `d[k] = v`: replace in place if the key exists,
else append. -/
def dictSet : List (String × String) → String → String → List (String × String)
  | [], k, v => [(k, v)]
  | (k1, v1) :: rest, k, v =>
    if k1 == k then (k, v) :: rest else (k1, v1) :: dictSet rest k v

/-- Python dict lookup `d.get(k)` on a header dict. -/
def headerGet : List (String × String) → String → Option String
  | [], _ => none
  | (k1, v1) :: rest, k => if k1 == k then some v1 else headerGet rest k

/-- The four wrapper methods, as operations on one client. -/
inductive ApiOp where
  | get
  | post
  | patch
  | delete
deriving DecidableEq, Repr

/-- `session.headers.update({...})` in `DataverseClient.__init__` on the
wrapper's own header set. -/
def init_headers (token : String) : List (String × String) :=
  [("Authorization", "Bearer " ++ token),
   ("Accept", "application/json"),
   ("OData-MaxVersion", "4.0"),
   ("OData-Version", "4.0")]

/-- The in-place session-header mutation each method performs before
sending its request. -/
def stepHeaders (h : List (String × String)) : ApiOp → List (String × String)
  | .get => h
  | .delete => h
  | .post => dictSet (dictSet h "Content-Type" "application/json")
      "Prefer" "return=representation"
  | .patch => dictSet h "Content-Type" "application/json"

/-- Session headers after a sequence of requests. -/
def sessionAfter (h0 : List (String × String)) (ops : List ApiOp) :
    List (String × String) :=
  ops.foldl stepHeaders h0

/-- Run a sequence of requests, recording for each the headers it was sent
with (the session headers after that method's own mutation). -/
def runOps (h : List (String × String)) : List ApiOp → List (ApiOp × List (String × String))
  | [] => []
  | op :: rest =>
    (op, stepHeaders h op) :: runOps (stepHeaders h op) rest

def isWriteOp : ApiOp → Bool
  | .post => true
  | .patch => true
  | _ => false

def isPostOp : ApiOp → Bool
  | .post => true
  | _ => false

theorem headerGet_dictSet_same (h : List (String × String)) (k v : String) :
    headerGet (dictSet h k v) k = some v := by
  induction h with
  | nil => simp [dictSet, headerGet]
  | cons p rest ih =>
    obtain ⟨k1, v1⟩ := p
    by_cases hk : k1 == k
    · simp [dictSet, headerGet, hk]
    · simp [dictSet, headerGet, hk, ih]

theorem headerGet_dictSet_other (h : List (String × String)) (k k2 v : String)
    (hne : (k == k2) = false) :
    headerGet (dictSet h k v) k2 = headerGet h k2 := by
  induction h with
  | nil => simp [dictSet, headerGet, hne]
  | cons p rest ih =>
    obtain ⟨k1, v1⟩ := p
    by_cases hk : k1 == k
    · have hk1 : k1 = k := by simpa using hk
      subst hk1
      simp [dictSet, headerGet, hne]
    · simp [dictSet, headerGet, hk, ih]

theorem sessionAfter_content_type (h0 : List (String × String)) (ops : List ApiOp) :
    headerGet (sessionAfter h0 ops) "Content-Type" =
      (if ops.any isWriteOp then some "application/json"
       else headerGet h0 "Content-Type") := by
  induction ops generalizing h0 with
  | nil => simp [sessionAfter]
  | cons op rest ih =>
    have hstep : sessionAfter h0 (op :: rest) = sessionAfter (stepHeaders h0 op) rest := rfl
    rw [hstep, ih]
    cases op with
    | get => simp [stepHeaders, isWriteOp]
    | delete => simp [stepHeaders, isWriteOp]
    | post =>
      have hct : headerGet (stepHeaders h0 ApiOp.post) "Content-Type"
          = some "application/json" := by
        unfold stepHeaders
        rw [headerGet_dictSet_other _ _ _ _ (by decide), headerGet_dictSet_same]
      simp [isWriteOp, hct]
    | patch =>
      have hct : headerGet (stepHeaders h0 ApiOp.patch) "Content-Type"
          = some "application/json" := by
        unfold stepHeaders
        rw [headerGet_dictSet_same]
      simp [isWriteOp, hct]

theorem sessionAfter_prefer (h0 : List (String × String)) (ops : List ApiOp) :
    headerGet (sessionAfter h0 ops) "Prefer" =
      (if ops.any isPostOp then some "return=representation"
       else headerGet h0 "Prefer") := by
  induction ops generalizing h0 with
  | nil => simp [sessionAfter]
  | cons op rest ih =>
    have hstep : sessionAfter h0 (op :: rest) = sessionAfter (stepHeaders h0 op) rest := rfl
    rw [hstep, ih]
    cases op with
    | get => simp [stepHeaders, isPostOp]
    | delete => simp [stepHeaders, isPostOp]
    | post =>
      have hp : headerGet (stepHeaders h0 ApiOp.post) "Prefer"
          = some "return=representation" := by
        unfold stepHeaders
        rw [headerGet_dictSet_same]
      simp [isPostOp, hp]
    | patch =>
      have hp : headerGet (stepHeaders h0 ApiOp.patch) "Prefer"
          = headerGet h0 "Prefer" := by
        unfold stepHeaders
        rw [headerGet_dictSet_other _ _ _ _ (by decide)]
      simp [isPostOp, hp]

/-- C8 counterexample: on one client, a GET issued after a POST carries
both `Content-Type` and `Prefer` — the POST's session-header mutation is
never undone, so the claim that a GET never carries these headers is false
as stated. -/
theorem get_after_post_carries_write_headers :
    headerGet ((runOps (init_headers "tok") [ApiOp.post, ApiOp.get]).getD 1
        (ApiOp.get, [])).2 "Content-Type" = some "application/json" ∧
    headerGet ((runOps (init_headers "tok") [ApiOp.post, ApiOp.get]).getD 1
        (ApiOp.get, [])).2 "Prefer" = some "return=representation" := by
  exact ⟨rfl, rfl⟩

/-- C8 (amended): the client's initial default headers are exactly the
fixed four (Authorization, Accept, OData-MaxVersion, OData-Version), with
no `Content-Type` or `Prefer`; `Content-Type` is added to the session by
POST and PATCH and `Prefer` by POST, and both persist thereafter — so a
GET request carries the session headers unchanged, and it carries
`Content-Type` iff some earlier request was a POST or PATCH, and `Prefer`
iff some earlier request was a POST.  A GET on a fresh client carries
neither. -/
theorem session_write_headers_persist (token : String) (pre : List ApiOp) :
    (init_headers token).map Prod.fst
      = ["Authorization", "Accept", "OData-MaxVersion", "OData-Version"] ∧
    headerGet (init_headers token) "Content-Type" = none ∧
    headerGet (init_headers token) "Prefer" = none ∧
    runOps (sessionAfter (init_headers token) pre) [ApiOp.get]
      = [(ApiOp.get, sessionAfter (init_headers token) pre)] ∧
    headerGet (sessionAfter (init_headers token) pre) "Content-Type"
      = (if pre.any isWriteOp then some "application/json" else none) ∧
    headerGet (sessionAfter (init_headers token) pre) "Prefer"
      = (if pre.any isPostOp then some "return=representation" else none) := by
  refine ⟨rfl, rfl, rfl, rfl, ?_, ?_⟩
  · rw [sessionAfter_content_type]
    rfl
  · rw [sessionAfter_prefer]
    rfl

/- ## Command layer (src/dataverse_cli/commands/solution.py, flow.py) -/

/-- Modelled from the spec: `format_response` from `dataverse_cli/output.py`,
which is imported by every command module but is not present under the
repository sources available here.  The spec's rule: Dataverse's list
wrapper convention (a JSON object carrying a `value` key holding a list)
must be unwrapped transparently to the plain list before results are
handed to commands; any other shape passes through unchanged
(an object without `value` stays an object, an empty body stays an empty
object). -/
def format_response (v : DvJson) : DvJson :=
  match v with
  | .obj fields =>
    match lookupField fields "value" with
    | some inner => inner
    | none => .obj fields
  | other => other

/-- The list comprehension
`[comp.get("objectid") for comp in components if comp.get("objectid")]`
from `list_solution_flows`; iterating a non-dict record raises
(`Except.error`), as Python would on `comp.get`. -/
def workflow_ids : List DvJson → Except String (List DvJson)
  | [] => .ok []
  | comp :: rest =>
    match comp with
    | .obj fields =>
      match workflow_ids rest with
      | .error e => .error e
      | .ok tail =>
        match lookupField fields "objectid" with
        | some v => if dvTruthy v then .ok (v :: tail) else .ok tail
        | none => .ok tail
    | _ => .error "AttributeError"

/-- `solution flows` (list_solution_flows) from the point where the
`solutioncomponents` response has arrived: unwrap it, short-circuit to an
empty flow list when the component set or the extracted id set is empty,
else build the OR-ed workflow filter and issue the second query (the
oracle `query_workflows`); the Bool records whether that second HTTP call
was issued.  A truthy non-list component result would make Python's
`for comp in components` loop fail on `comp.get` (`Except.error`). -/
def list_solution_flows_core (component_result : DvJson)
    (query_workflows : String → DvJson) : Except String (DvJson × Bool) :=
  let components := format_response component_result
  if dvTruthy components then
    match components with
    | .arr comps =>
      match workflow_ids comps with
      | .error e => .error e
      | .ok ids =>
        if ids.isEmpty then .ok (.arr [], false)
        else
          let id_filters := String.intercalate " or "
            (ids.map fun wid => "workflowid eq " ++ pyStr wid)
          let filt := "category eq 5 and (" ++ id_filters ++ ")"
          .ok (format_response (query_workflows filt), true)
    | _ => .error "AttributeError"
  else .ok (.arr [], false)

/-- C7: in solution-scoped flow listing, an empty component set — or a
non-empty one whose extracted object-id set is empty — short-circuits to
the empty flow list with the second workflows query never issued. -/
theorem solution_flows_short_circuit (comps : List DvJson)
    (query_workflows : String → DvJson)
    (h : comps = [] ∨ workflow_ids comps = Except.ok []) :
    list_solution_flows_core (DvJson.obj [("value", DvJson.arr comps)]) query_workflows
      = Except.ok (DvJson.arr [], false) := by
  have hfmt : format_response (DvJson.obj [("value", DvJson.arr comps)])
      = DvJson.arr comps := rfl
  cases comps with
  | nil => rfl
  | cons c cs =>
    rcases h with h | h
    · cases h
    · simp [list_solution_flows_core, hfmt, dvTruthy, h]

/-- A component record with no `objectid` field. -/
def component_without_objectid : DvJson := DvJson.obj [("componenttype", DvJson.num 29)]

/-- Witness for C7: a single component lacking `objectid` gives an empty
id set, an empty flow list, and no second query. -/
theorem solution_flows_short_circuit_witness :
    ([component_without_objectid] = ([] : List DvJson) ∨
      workflow_ids [component_without_objectid] = Except.ok []) ∧
    list_solution_flows_core
        (DvJson.obj [("value", DvJson.arr [component_without_objectid])])
        (fun _ => DvJson.null)
      = Except.ok (DvJson.arr [], false) :=
  ⟨Or.inr rfl,
   solution_flows_short_circuit [component_without_objectid]
     (fun _ => DvJson.null) (Or.inr rfl)⟩

/-- The filter `[f for f in flows if f.get("solutionid") == solution_id]`
from `list_flows`; a non-dict flow record raises as Python would. -/
def filter_flows_by_solution : List DvJson → Option DvJson →
    Except String (List DvJson)
  | [], _ => .ok []
  | f :: rest, sid =>
    match f with
    | .obj fields =>
      match filter_flows_by_solution rest sid with
      | .error e => .error e
      | .ok tail =>
        if pyEqOpt (lookupField fields "solutionid") sid then .ok (f :: tail)
        else .ok tail
    | _ => .error "AttributeError"

/-- The `--solution` filtering stage of `flow list`, from the point where
the full flow list and the solution-lookup response are in hand: if the
unwrapped solution list is truthy, resolve `solutions[0].get("solutionid")`
and filter the flows client-side; otherwise leave the flow list untouched.
Indexing a truthy non-list raises as Python would. -/
def apply_solution_filter (flows : List DvJson) (solution_result : DvJson) :
    Except String (List DvJson) :=
  let solutions := format_response solution_result
  if dvTruthy solutions then
    match solutions with
    | .arr (s0 :: _) =>
      match s0 with
      | .obj fields => filter_flows_by_solution flows (lookupField fields "solutionid")
      | _ => .error "AttributeError"
    | _ => .error "TypeError"
  else .ok flows

/-- C10: when the solution-name lookup returns no solutions (an empty
`value` list), `flow list --solution` neither fails nor empties the
result — the full fetched flow list passes through unfiltered. -/
theorem flow_list_unfiltered_on_empty_solution_lookup (flows : List DvJson) :
    apply_solution_filter flows (DvJson.obj [("value", DvJson.arr [])])
      = Except.ok flows := by
  rfl
